import Mathlib

/-!
Verification of the arun_smart_bot repository against its specification.

The Python modules under src/ are shallowly embedded below: machine floats
become exact rationals, positional OHLCV candle lists become a six-field
record, mutable objects become explicit state passed through pure
functions, and fallible dictionary-returning functions become Option
results.  Every definition is translated from the source file named in its
doc comment; the few configuration constants whose defining revision is
absent from the snapshot are modelled from the specification and marked as
such.
-/

set_option maxRecDepth 4000
set_option maxHeartbeats 1000000

/-- One OHLCV candle.  The source passes candles as positional lists
[timestamp, open, high, low, close, volume]; the fields here are those six
positions in order. -/
structure Candle where
  t : ℚ
  o : ℚ
  h : ℚ
  l : ℚ
  c : ℚ
  v : ℚ
deriving DecidableEq

/-- Arithmetic mean of a list of rationals (np.mean); the empty list gives
0 because rational division by zero is 0 — every use in the sources is
guarded by a length check. -/
def qmean (xs : List ℚ) : ℚ := xs.sum / xs.length

/-- Last n elements of a list, the Python slice xs[-n:]. -/
def takeLast (xs : List α) (n : ℕ) : List α := xs.drop (xs.length - n)

/-- Consecutive differences, np.diff: element i is xs[i+1] - xs[i]. -/
def pydiff (xs : List ℚ) : List ℚ := (xs.tail.zip xs).map fun p => p.1 - p.2

/-- Round to the nearest integer with ties to even, the rounding Python's
round builtin uses. -/
def pyRoundInt (q : ℚ) : ℤ :=
  let f : ℤ := ⌊q⌋
  let r : ℚ := q - (f : ℚ)
  if r < 1/2 then f
  else if 1/2 < r then f + 1
  else if f % 2 = 0 then f else f + 1

/-- Python round(q, ndigits). -/
def pyRound (q : ℚ) (ndigits : ℕ) : ℚ :=
  (pyRoundInt (q * (10 : ℚ) ^ ndigits) : ℚ) / (10 : ℚ) ^ ndigits

/-- True ranges of consecutive candles (the trs list comprehension shared
by market_regime, smart_sizing and the indicator helpers): for i from 1,
max of high-low, abs high-prevclose, abs low-prevclose. -/
def trueRanges (ohlcv : List Candle) : List ℚ :=
  ((ohlcv.drop 1).zip ohlcv).map fun p =>
    max (p.1.h - p.1.l) (max |p.1.h - p.2.c| |p.1.l - p.2.c|)

/-- Closing prices of a candle list (the arr[:, 4] column). -/
def closesOf (ohlcv : List Candle) : List ℚ := ohlcv.map (·.c)

-- ═══════════════════════════════════════════════════════════════════════
-- src/core/market_regime.py
-- ═══════════════════════════════════════════════════════════════════════

/-- Regime label constants from src/core/market_regime.py. -/
def REGIME_TRENDING : String := "TRENDING"

/-- Regime label RANGING. -/
def REGIME_RANGING : String := "RANGING"

/-- Regime label EXTREME_FEAR. -/
def REGIME_FEAR : String := "EXTREME_FEAR"

/-- RegimeParams dataclass: all signal parameters that change per regime. -/
structure RegimeParams where
  regime : String
  rsi_oversold : ℚ
  rsi_overbought : ℚ
  atr_sl_mult : ℚ
  atr_tp_mult : ℚ
  volume_multiplier : ℚ
  min_filters_pass : ℕ
  size_multiplier : ℚ
  label : String
  emoji : String
deriving DecidableEq

/-- PARAMS_TRENDING constant from src/core/market_regime.py. -/
def PARAMS_TRENDING : RegimeParams :=
  { regime := REGIME_TRENDING
    rsi_oversold := 35
    rsi_overbought := 65
    atr_sl_mult := 3/2
    atr_tp_mult := 5/2
    volume_multiplier := 6/5
    min_filters_pass := 5
    size_multiplier := 1
    label := "Trending Market"
    emoji := "📈" }

/-- PARAMS_RANGING constant from src/core/market_regime.py. -/
def PARAMS_RANGING : RegimeParams :=
  { regime := REGIME_RANGING
    rsi_oversold := 30
    rsi_overbought := 70
    atr_sl_mult := 6/5
    atr_tp_mult := 9/5
    volume_multiplier := 3/2
    min_filters_pass := 4
    size_multiplier := 7/10
    label := "Ranging / Choppy"
    emoji := "↔️" }

/-- PARAMS_FEAR constant from src/core/market_regime.py. -/
def PARAMS_FEAR : RegimeParams :=
  { regime := REGIME_FEAR
    rsi_oversold := 25
    rsi_overbought := 75
    atr_sl_mult := 2
    atr_tp_mult := 7/2
    volume_multiplier := 2
    min_filters_pass := 4
    size_multiplier := 1/2
    label := "Extreme Fear"
    emoji := "😱" }

/-- The module-level _ema helper of market_regime.py: mean when fewer than
period values, otherwise a smoothing fold seeded with the first value. -/
def _ema (values : List ℚ) (period : ℕ) : ℚ :=
  if values.length < period then qmean values
  else
    match values with
    | [] => qmean values
    | v0 :: rest =>
      let k : ℚ := 2 / ((period : ℚ) + 1)
      rest.foldl (fun e x => x * k + e * (1 - k)) v0

/-- The _rsi helper of market_regime.py: Wilder-smoothed RSI over closes,
rounded to two decimal places; 50 on insufficient data, 100 when the
smoothed loss is zero. -/
def _rsi (closes : List ℚ) (period : ℕ) : ℚ :=
  if closes.length < period + 1 then 50
  else
    let deltas := pydiff closes
    let gains := deltas.map fun d => if 0 < d then d else 0
    let losses := deltas.map fun d => if d < 0 then -d else 0
    let a :=
      ((gains.drop period).zip (losses.drop period)).foldl
        (fun (a : ℚ × ℚ) gl =>
          ((a.1 * ((period : ℚ) - 1) + gl.1) / period,
           (a.2 * ((period : ℚ) - 1) + gl.2) / period))
        (qmean (gains.take period), qmean (losses.take period))
    if a.2 = 0 then 100
    else pyRound (100 - 100 / (1 + a.1 / a.2)) 2

/-- The _atr_pct helper of market_regime.py: ATR(14) as a percentage of
the last close, defaulting to 0.5 on short data or non-positive price. -/
def _atr_pct (ohlcv : List Candle) : ℚ :=
  if ohlcv.length < 15 then 1/2
  else
    let trs := trueRanges ohlcv
    let atr := if 14 ≤ trs.length then qmean (takeLast trs 14) else qmean trs
    let lastClose := (closesOf ohlcv).getLast?.getD 0
    if 0 < lastClose then atr / lastClose * 100 else 1/2

/-- The _ema_gap_pct helper of market_regime.py: EMA9-EMA21 gap as a
percentage of EMA21, 0 on short data or non-positive EMA21. -/
def _ema_gap_pct (ohlcv : List Candle) : ℚ :=
  if ohlcv.length < 22 then 0
  else
    let closes := closesOf ohlcv
    let e9 := _ema closes 9
    let e21 := _ema closes 21
    if 0 < e21 then |e9 - e21| / e21 * 100 else 0

/-- The _rsi_volatility helper of market_regime.py, squared: the source
returns the population standard deviation of a rolling RSI series, which
is irrational in general, so this embedding computes its square (the
population variance); every consumer compares the std against a threshold
and is embedded as the variance against the squared threshold.  The
source's defaults of 10.0 become 100 here. -/
def _rsi_volatility_sq (ohlcv : List Candle) (lookback : ℕ) : ℚ :=
  if ohlcv.length < lookback + 15 then 100
  else
    let closes := closesOf ohlcv
    let series := (List.range lookback).filterMap fun i =>
      let window := closes.take (closes.length - (lookback - i))
      if 15 ≤ window.length then some (_rsi (takeLast window 30) 14) else none
    if series = [] then 100
    else
      let m := qmean series
      qmean (series.map fun x => (x - m) ^ 2)

/-- detect_regime from src/core/market_regime.py.  The debug dictionary the
source returns alongside the pair is reporting-only and omitted; the
ranging check compares the squared RSI volatility against 8.0 squared (see
_rsi_volatility_sq). -/
def detect_regime (btc_ohlcv : List Candle) (funding_rate : ℚ) :
    String × RegimeParams :=
  if btc_ohlcv.length < 30 then (REGIME_RANGING, PARAMS_RANGING)
  else
    let rsi := _rsi (closesOf btc_ohlcv) 14
    let ema_gap_pct := _ema_gap_pct btc_ohlcv
    let atr_pct := _atr_pct btc_ohlcv
    let rsi_var := _rsi_volatility_sq btc_ohlcv 20
    if (funding_rate ≤ -(5/10000) ∧ rsi < 30) ∨
       (10/10000 ≤ funding_rate ∧ 70 < rsi) then
      (REGIME_FEAR, PARAMS_FEAR)
    else
      let ranging_score : ℕ :=
        (if ema_gap_pct < 1/5 then 1 else 0) +
        (if atr_pct < 2/5 then 1 else 0) +
        (if rsi_var < 64 then 1 else 0)
      if 2 ≤ ranging_score then (REGIME_RANGING, PARAMS_RANGING)
      else (REGIME_TRENDING, PARAMS_TRENDING)

/-- A 30-candle BTC series whose closes fall by one unit per candle: every
delta is a loss, so the smoothed average gain is zero and the RSI is 0. -/
def fearSeries : List Candle :=
  [⟨0,0,0,0,100,0⟩, ⟨1,0,0,0,99,0⟩, ⟨2,0,0,0,98,0⟩, ⟨3,0,0,0,97,0⟩,
   ⟨4,0,0,0,96,0⟩, ⟨5,0,0,0,95,0⟩, ⟨6,0,0,0,94,0⟩, ⟨7,0,0,0,93,0⟩,
   ⟨8,0,0,0,92,0⟩, ⟨9,0,0,0,91,0⟩, ⟨10,0,0,0,90,0⟩, ⟨11,0,0,0,89,0⟩,
   ⟨12,0,0,0,88,0⟩, ⟨13,0,0,0,87,0⟩, ⟨14,0,0,0,86,0⟩, ⟨15,0,0,0,85,0⟩,
   ⟨16,0,0,0,84,0⟩, ⟨17,0,0,0,83,0⟩, ⟨18,0,0,0,82,0⟩, ⟨19,0,0,0,81,0⟩,
   ⟨20,0,0,0,80,0⟩, ⟨21,0,0,0,79,0⟩, ⟨22,0,0,0,78,0⟩, ⟨23,0,0,0,77,0⟩,
   ⟨24,0,0,0,76,0⟩, ⟨25,0,0,0,75,0⟩, ⟨26,0,0,0,74,0⟩, ⟨27,0,0,0,73,0⟩,
   ⟨28,0,0,0,72,0⟩, ⟨29,0,0,0,71,0⟩]

/-- C1: for a BTC series of at least 30 candles, detect_regime returns
EXTREME_FEAR exactly when funding is at most -0.0005 with RSI(14) below
30 or funding is at least 0.0010 with RSI above 70; on a falling series
with RSI 0 and funding -0.0006 it returns EXTREME_FEAR with PARAMS_FEAR,
whose rsi_oversold is 25, atr_sl_mult 2.0 and size_multiplier 0.5. -/
theorem C1_detect_regime_fear (o : List Candle) (f : ℚ) (hlen : 30 ≤ o.length) :
    ((detect_regime o f).1 = REGIME_FEAR ↔
      (f ≤ -(5/10000) ∧ _rsi (closesOf o) 14 < 30) ∨
      (10/10000 ≤ f ∧ 70 < _rsi (closesOf o) 14)) ∧
    detect_regime fearSeries (-(6/10000)) = (REGIME_FEAR, PARAMS_FEAR) ∧
    PARAMS_FEAR.rsi_oversold = 25 ∧ PARAMS_FEAR.atr_sl_mult = 2 ∧
    PARAMS_FEAR.size_multiplier = 1/2 := by
  refine ⟨?_,
    by norm_num [detect_regime, fearSeries, _rsi, closesOf, pydiff, qmean,
      pyRound, pyRoundInt],
    by norm_num [PARAMS_FEAR], by norm_num [PARAMS_FEAR],
    by norm_num [PARAMS_FEAR]⟩
  have hne : ¬ o.length < 30 := by omega
  simp only [detect_regime, if_neg hne]
  split_ifs with hcond
  · exact iff_of_true rfl hcond
  all_goals exact iff_of_false (by decide) hcond

/-- Witness for C1 at the concrete falling series. -/
theorem C1_detect_regime_fear_witness :
    (detect_regime fearSeries (-(6/10000))).1 = REGIME_FEAR ↔
      ((-(6/10000) : ℚ) ≤ -(5/10000) ∧ _rsi (closesOf fearSeries) 14 < 30) ∨
      ((10/10000 : ℚ) ≤ -(6/10000) ∧ 70 < _rsi (closesOf fearSeries) 14) :=
  (C1_detect_regime_fear fearSeries (-(6/10000)) (by norm_num [fearSeries])).1

-- ═══════════════════════════════════════════════════════════════════════
-- src/config.py
-- ═══════════════════════════════════════════════════════════════════════

namespace config

/-- TRADING_PAIRS from src/config.py: the three high-liquidity pairs of
this revision. -/
def TRADING_PAIRS : List String := ["BTC/USDT", "ETH/USDT", "SOL/USDT"]

/-- TIMEFRAMES from src/config.py. -/
def TIMEFRAMES : List String := ["5m", "15m", "1h"]

/-- VOLUME_MULTIPLIER from src/config.py (1.1 in this revision). -/
def VOLUME_MULTIPLIER : ℚ := 11/10

/-- MIN_RR_RATIO from src/config.py (2.0 in this revision). -/
def MIN_RR_RATIO : ℚ := 2

/-- LEVERAGE from src/config.py (10 in this revision, reduced from 15). -/
def LEVERAGE : ℚ := 10

/-- RISK_PCT from src/config.py (a single value, 1.0, in this revision). -/
def RISK_PCT : ℚ := 1

/-- MAX_SIGNALS_DAY from src/config.py (4 in this revision). -/
def MAX_SIGNALS_DAY : ℕ := 4

/-- MAX_CONCURRENT from src/config.py (1 in this revision). -/
def MAX_CONCURRENT : ℕ := 1

/-- Modelled from the spec: the VOLUME_LOOKBACK constant read by the
session detector is absent from the config revision in the snapshot; the
specification fixes the rolling-average window at 20 bars. -/
def VOLUME_LOOKBACK : ℕ := 20

/-- Modelled from the spec: the RISK_PCT_MIN constant read by smart
sizing is absent from the config revision in the snapshot; the
specification gives a 1.0 to 2.0 percent risk band. -/
def RISK_PCT_MIN : ℚ := 1

/-- Modelled from the spec: the RISK_PCT_MAX constant read by smart
sizing is absent from the config revision in the snapshot; the
specification gives a 1.0 to 2.0 percent risk band. -/
def RISK_PCT_MAX : ℚ := 2

/-- Modelled from the spec: the LOW_VOL_ATR_PCT threshold read by smart
sizing is absent from the config revision in the snapshot; the
specification puts the LOW volatility band below 0.3 percent. -/
def LOW_VOL_ATR_PCT : ℚ := 3/10

/-- Modelled from the spec: the MED_VOL_ATR_PCT threshold read by smart
sizing is absent from the config revision in the snapshot; the
specification puts the MEDIUM volatility band below 0.8 percent. -/
def MED_VOL_ATR_PCT : ℚ := 8/10

end config

-- ═══════════════════════════════════════════════════════════════════════
-- src/exchanges/funding_rate_filter.py
-- ═══════════════════════════════════════════════════════════════════════

/-- FUNDING_NEUTRAL_MAX threshold constant (+0.05 percent). -/
def FUNDING_NEUTRAL_MAX : ℚ := 5/10000

/-- FUNDING_NEUTRAL_MIN threshold constant (-0.05 percent). -/
def FUNDING_NEUTRAL_MIN : ℚ := -(5/10000)

/-- FUNDING_EXTREME_MAX threshold constant (+0.10 percent). -/
def FUNDING_EXTREME_MAX : ℚ := 10/10000

/-- FUNDING_EXTREME_MIN threshold constant (-0.10 percent). -/
def FUNDING_EXTREME_MIN : ℚ := -(10/10000)

/-- The reason string each branch of FundingRateFilter.evaluate builds,
with the interpolated numeric rate dropped: blockCrowdedLong stands for
the crowded LONG skip message, blockCrowdedShort for the crowded SHORT
skip message, elevatedAllowed for the elevated-but-allowed warning and
okRate for the plain OK message. -/
inductive FundingVerdict where
  | blockCrowdedLong
  | blockCrowdedShort
  | elevatedAllowed
  | okRate
deriving DecidableEq

/-- FundingRateFilter.evaluate from src/exchanges/funding_rate_filter.py:
LONG fails at or beyond the positive extreme threshold, SHORT fails at or
beyond the negative extreme threshold, everything else passes. -/
def FundingRateFilter.evaluate (direction : String) (rate : ℚ) :
    Bool × FundingVerdict :=
  if direction = "LONG" then
    if FUNDING_EXTREME_MAX ≤ rate then (false, .blockCrowdedLong)
    else if FUNDING_NEUTRAL_MAX ≤ rate then (true, .elevatedAllowed)
    else (true, .okRate)
  else
    if rate ≤ FUNDING_EXTREME_MIN then (false, .blockCrowdedShort)
    else if rate ≤ FUNDING_NEUTRAL_MIN then (true, .elevatedAllowed)
    else (true, .okRate)

/-- C4: evaluate passes both directions throughout the neutral and warning
bands (any rate strictly between the extreme thresholds) and fails only
when the rate would deepen a crowded position: LONG exactly at or beyond
+0.10 percent, SHORT exactly at or beyond -0.10 percent; at +0.0012 a
LONG is blocked with the crowded-LONG reason and at +0.0003 it passes. -/
theorem C4_funding_evaluate :
    (∀ r : ℚ, (FundingRateFilter.evaluate "LONG" r).1 = false ↔
      FUNDING_EXTREME_MAX ≤ r) ∧
    (∀ r : ℚ, (FundingRateFilter.evaluate "SHORT" r).1 = false ↔
      r ≤ FUNDING_EXTREME_MIN) ∧
    (∀ r : ℚ, FUNDING_EXTREME_MIN < r → r < FUNDING_EXTREME_MAX →
      (FundingRateFilter.evaluate "LONG" r).1 = true ∧
      (FundingRateFilter.evaluate "SHORT" r).1 = true) ∧
    FundingRateFilter.evaluate "LONG" (12/10000) =
      (false, FundingVerdict.blockCrowdedLong) ∧
    FundingRateFilter.evaluate "LONG" (3/10000) =
      (true, FundingVerdict.okRate) ∧
    FUNDING_NEUTRAL_MAX = 5/10000 ∧ FUNDING_EXTREME_MAX = 10/10000 := by
  refine ⟨fun r => ?_, fun r => ?_, fun r h1 h2 => ?_,
    by norm_num [FundingRateFilter.evaluate, FUNDING_EXTREME_MAX,
      FUNDING_NEUTRAL_MAX],
    by norm_num [FundingRateFilter.evaluate, FUNDING_EXTREME_MAX,
      FUNDING_NEUTRAL_MAX],
    rfl, rfl⟩
  · simp only [FundingRateFilter.evaluate]
    norm_num
    split_ifs with h1 h2 <;> simp_all
  · simp only [FundingRateFilter.evaluate]
    split_ifs with h1 h2 <;> simp_all
  · unfold FundingRateFilter.evaluate FUNDING_EXTREME_MAX FUNDING_EXTREME_MIN
      FUNDING_NEUTRAL_MAX FUNDING_NEUTRAL_MIN at *
    constructor <;> split_ifs with ha hb <;> simp_all <;> linarith

/-- Witness for C4 in the warning band at +0.0007. -/
theorem C4_funding_evaluate_witness :
    (FundingRateFilter.evaluate "LONG" (7/10000)).1 = true ∧
    (FundingRateFilter.evaluate "SHORT" (7/10000)).1 = true :=
  C4_funding_evaluate.2.2.1 (7/10000) (by norm_num [FUNDING_EXTREME_MIN])
    (by norm_num [FUNDING_EXTREME_MAX])

-- ═══════════════════════════════════════════════════════════════════════
-- src/core/session_detector.py
-- ═══════════════════════════════════════════════════════════════════════

/-- Session label PRIME. -/
def SESSION_PRIME : String := "PRIME"

/-- Session label ACTIVE. -/
def SESSION_ACTIVE : String := "ACTIVE"

/-- Session label QUIET. -/
def SESSION_QUIET : String := "QUIET"

/-- The _rolling_mean helper of session_detector.py: mean of the last
window elements, the plain mean when fewer are available, 0 when empty. -/
def _rolling_mean (arr : List ℚ) (window : ℕ) : ℚ :=
  if arr.length < window then (if arr.length = 0 then 0 else qmean arr)
  else qmean (takeLast arr window)

/-- The vol_ratio local of detect_session: last volume over the rolling
mean of the preceding volumes, 1 when the average is not positive. -/
def session_vol_ratio (ohlcv : List Candle) : ℚ :=
  let volumes := ohlcv.map (·.v)
  let window := min config.VOLUME_LOOKBACK (ohlcv.length - 1)
  let avg_volume := _rolling_mean volumes.dropLast window
  let last_volume := volumes.getLast?.getD 0
  if 0 < avg_volume then last_volume / avg_volume else 1

/-- The rang_ratio local of detect_session: last high-low range over the
rolling mean of the preceding ranges, 1 when the average is not positive. -/
def session_rang_ratio (ohlcv : List Candle) : ℚ :=
  let ranges := ohlcv.map fun x => x.h - x.l
  let window := min config.VOLUME_LOOKBACK (ohlcv.length - 1)
  let avg_range := _rolling_mean ranges.dropLast window
  let last_range := ranges.getLast?.getD 0
  if 0 < avg_range then last_range / avg_range else 1

/-- detect_session from src/core/session_detector.py: classify the current
session from the last candle's volume and range against rolling averages of
the preceding candles; returns the label with the two ratios. -/
def detect_session (ohlcv : List Candle) : String × ℚ × ℚ :=
  if ohlcv.length < 10 then (SESSION_ACTIVE, 1, 1)
  else
    let vol_ratio := session_vol_ratio ohlcv
    let rang_ratio := session_rang_ratio ohlcv
    if config.VOLUME_MULTIPLIER ≤ vol_ratio ∧ (1:ℚ) ≤ rang_ratio then
      (SESSION_PRIME, vol_ratio, rang_ratio)
    else if config.VOLUME_MULTIPLIER ≤ vol_ratio ∨ (1:ℚ) ≤ rang_ratio then
      (SESSION_ACTIVE, vol_ratio, rang_ratio)
    else (SESSION_QUIET, vol_ratio, rang_ratio)

/-- An 11-candle series whose last candle has 1.5 times the average volume
and exactly average range. -/
def primeSeries : List Candle :=
  [⟨0,0,101,100,0,100⟩, ⟨1,0,101,100,0,100⟩, ⟨2,0,101,100,0,100⟩,
   ⟨3,0,101,100,0,100⟩, ⟨4,0,101,100,0,100⟩, ⟨5,0,101,100,0,100⟩,
   ⟨6,0,101,100,0,100⟩, ⟨7,0,101,100,0,100⟩, ⟨8,0,101,100,0,100⟩,
   ⟨9,0,101,100,0,100⟩, ⟨10,0,101,100,0,150⟩]

/-- An 11-candle series whose last candle has 0.8 times the average volume
and half the average range. -/
def quietSeries : List Candle :=
  [⟨0,0,101,100,0,100⟩, ⟨1,0,101,100,0,100⟩, ⟨2,0,101,100,0,100⟩,
   ⟨3,0,101,100,0,100⟩, ⟨4,0,101,100,0,100⟩, ⟨5,0,101,100,0,100⟩,
   ⟨6,0,101,100,0,100⟩, ⟨7,0,101,100,0,100⟩, ⟨8,0,101,100,0,100⟩,
   ⟨9,0,101,100,0,100⟩, ⟨10,0,201/2,100,0,80⟩]

/-- An 11-candle series whose last candle has 1.15 times the average
volume (above the configured 1.1 threshold but below 1.2) and exactly
average range. -/
def sessionBoundarySeries : List Candle :=
  [⟨0,0,101,100,0,100⟩, ⟨1,0,101,100,0,100⟩, ⟨2,0,101,100,0,100⟩,
   ⟨3,0,101,100,0,100⟩, ⟨4,0,101,100,0,100⟩, ⟨5,0,101,100,0,100⟩,
   ⟨6,0,101,100,0,100⟩, ⟨7,0,101,100,0,100⟩, ⟨8,0,101,100,0,100⟩,
   ⟨9,0,101,100,0,100⟩, ⟨10,0,101,100,0,115⟩]

/-- C6 counterexample: a volume ratio of 1.15 with average range is
classified PRIME by the code, although 1.15 is below the 1.2 threshold
the claim names — the configured threshold in this revision is 1.1. -/
theorem C6_counterexample :
    detect_session sessionBoundarySeries = (SESSION_PRIME, 23/20, 1) ∧
    (23/20 : ℚ) < 12/10 := by
  constructor
  · norm_num [detect_session, session_vol_ratio, session_rang_ratio,
      sessionBoundarySeries, _rolling_mean, qmean, takeLast,
      config.VOLUME_LOOKBACK, config.VOLUME_MULTIPLIER]
  · norm_num

/-- C6 as amended: for a series of at least 10 candles the session is
PRIME exactly when the volume ratio is at or above the configured
VOLUME_MULTIPLIER (1.1 in this revision, not the 1.2 the claim states) and
the range ratio is at or above 1.0, ACTIVE when exactly one of the two
holds, QUIET when neither; a 1.5 volume ratio with average range is PRIME
and a 0.8 volume ratio with below-average range is QUIET. -/
theorem C6_detect_session (o : List Candle) (s : String) (vr rr : ℚ)
    (hlen : 10 ≤ o.length) (heq : detect_session o = (s, vr, rr)) :
    ((s = SESSION_PRIME) ↔ (config.VOLUME_MULTIPLIER ≤ vr ∧ 1 ≤ rr)) ∧
    ((s = SESSION_ACTIVE) ↔
      ((config.VOLUME_MULTIPLIER ≤ vr ∧ rr < 1) ∨
       (vr < config.VOLUME_MULTIPLIER ∧ 1 ≤ rr))) ∧
    ((s = SESSION_QUIET) ↔ (vr < config.VOLUME_MULTIPLIER ∧ rr < 1)) ∧
    config.VOLUME_MULTIPLIER = 11/10 ∧
    detect_session primeSeries = (SESSION_PRIME, 3/2, 1) ∧
    detect_session quietSeries = (SESSION_QUIET, 4/5, 1/2) := by
  have hne : ¬ o.length < 10 := by omega
  have key :
      ((s = SESSION_PRIME) ↔ (config.VOLUME_MULTIPLIER ≤ vr ∧ 1 ≤ rr)) ∧
      ((s = SESSION_ACTIVE) ↔
        ((config.VOLUME_MULTIPLIER ≤ vr ∧ rr < 1) ∨
         (vr < config.VOLUME_MULTIPLIER ∧ 1 ≤ rr))) ∧
      ((s = SESSION_QUIET) ↔ (vr < config.VOLUME_MULTIPLIER ∧ rr < 1)) := by
    simp only [detect_session, if_neg hne] at heq
    split_ifs at heq with h1 h2 <;>
      (simp only [Prod.mk.injEq] at heq; obtain ⟨rfl, rfl, rfl⟩ := heq)
    · refine ⟨iff_of_true rfl h1, iff_of_false (by decide) ?_,
        iff_of_false (by decide) ?_⟩
      · rintro (⟨-, hx⟩ | ⟨hx, -⟩)
        · exact absurd h1.2 (not_le.mpr hx)
        · exact absurd h1.1 (not_le.mpr hx)
      · rintro ⟨hx, -⟩
        exact absurd h1.1 (not_le.mpr hx)
    · refine ⟨iff_of_false (by decide) h1, iff_of_true rfl ?_,
        iff_of_false (by decide) ?_⟩
      · rcases h2 with hA | hB
        · exact Or.inl ⟨hA, not_le.mp fun hB => h1 ⟨hA, hB⟩⟩
        · exact Or.inr ⟨not_le.mp fun hA => h1 ⟨hA, hB⟩, hB⟩
      · rintro ⟨hv, hr⟩
        rcases h2 with hA | hB
        · exact absurd hA (not_le.mpr hv)
        · exact absurd hB (not_le.mpr hr)
    · push_neg at h2
      refine ⟨iff_of_false (by decide) h1, iff_of_false (by decide) ?_,
        iff_of_true rfl h2⟩
      rintro (⟨hA, -⟩ | ⟨-, hB⟩)
      · exact absurd hA (not_le.mpr h2.1)
      · exact absurd hB (not_le.mpr h2.2)
  refine ⟨key.1, key.2.1, key.2.2, rfl,
    by norm_num [detect_session, session_vol_ratio, session_rang_ratio,
      primeSeries, _rolling_mean, qmean, takeLast,
      config.VOLUME_LOOKBACK, config.VOLUME_MULTIPLIER],
    by norm_num [detect_session, session_vol_ratio, session_rang_ratio,
      quietSeries, _rolling_mean, qmean, takeLast,
      config.VOLUME_LOOKBACK, config.VOLUME_MULTIPLIER]⟩

/-- Witness for C6 at the concrete PRIME series. -/
theorem C6_detect_session_witness :
    (SESSION_PRIME = SESSION_PRIME) ↔
      (config.VOLUME_MULTIPLIER ≤ 3/2 ∧ (1:ℚ) ≤ 1) :=
  (C6_detect_session primeSeries SESSION_PRIME (3/2) 1
    (by norm_num [primeSeries])
    (by norm_num [detect_session, session_vol_ratio, session_rang_ratio,
      primeSeries, _rolling_mean, qmean, takeLast,
      config.VOLUME_LOOKBACK, config.VOLUME_MULTIPLIER])).1

-- ═══════════════════════════════════════════════════════════════════════
-- src/core/smart_sizing.py
-- ═══════════════════════════════════════════════════════════════════════

/-- The dictionary calculate_position_size returns, as a record. -/
structure SizingResult where
  risk_pct : ℚ
  risk_usd : ℚ
  position_usd : ℚ
  contracts : ℚ
  leverage : ℚ
deriving DecidableEq

/-- The _atr_regime helper of smart_sizing.py: classify the ATR-to-price
percentage of the last 14 true ranges into LOW, MED or HIGH; MED on short
data or a non-positive last close. -/
def _atr_regime (ohlcv : List Candle) : String :=
  if ohlcv.length < 20 then "MED"
  else
    let trs := trueRanges ohlcv
    let atr := if trs = [] then 0 else qmean (takeLast trs 14)
    let last_close := (closesOf ohlcv).getLast?.getD 0
    if last_close ≤ 0 then "MED"
    else
      let atr_pct := atr / last_close * 100
      if atr_pct < config.LOW_VOL_ATR_PCT then "LOW"
      else if atr_pct < config.MED_VOL_ATR_PCT then "MED"
      else "HIGH"

/-- calculate_risk_pct from src/core/smart_sizing.py: risk percent by
volatility regime — the band maximum in LOW, the band midpoint in MED,
the band minimum in HIGH. -/
def calculate_risk_pct (ohlcv : List Candle) : ℚ :=
  if _atr_regime ohlcv = "LOW" then config.RISK_PCT_MAX
  else if _atr_regime ohlcv = "MED" then
    (config.RISK_PCT_MIN + config.RISK_PCT_MAX) / 2
  else config.RISK_PCT_MIN

/-- calculate_position_size from src/core/smart_sizing.py: risk dollars
from the regime risk percent, position notional capped at account times
leverage, contracts as notional over entry; none on degenerate inputs
(the source returns an empty dictionary there). -/
def calculate_position_size (account_size_usd entry_price stop_loss : ℚ)
    (ohlcv : List Candle) : Option SizingResult :=
  if entry_price ≤ 0 ∨ stop_loss ≤ 0 ∨ account_size_usd ≤ 0 then none
  else
    let risk_pct := calculate_risk_pct ohlcv
    let risk_usd := account_size_usd * risk_pct / 100
    let sl_distance_pct := |entry_price - stop_loss| / entry_price
    if sl_distance_pct ≤ 0 then none
    else
      let position_usd := risk_usd / sl_distance_pct
      let max_position := account_size_usd * config.LEVERAGE
      let capped_usd := min position_usd max_position
      let contracts := capped_usd / entry_price
      some { risk_pct := pyRound risk_pct 2
             risk_usd := pyRound risk_usd 2
             position_usd := pyRound capped_usd 2
             contracts := pyRound contracts 6
             leverage := config.LEVERAGE }

/-- A 20-candle series with zero true range, hence ATR percent 0 and a
LOW volatility regime. -/
def lowVolSeries : List Candle :=
  [⟨0,1000,1000,1000,1000,1⟩, ⟨1,1000,1000,1000,1000,1⟩,
   ⟨2,1000,1000,1000,1000,1⟩, ⟨3,1000,1000,1000,1000,1⟩,
   ⟨4,1000,1000,1000,1000,1⟩, ⟨5,1000,1000,1000,1000,1⟩,
   ⟨6,1000,1000,1000,1000,1⟩, ⟨7,1000,1000,1000,1000,1⟩,
   ⟨8,1000,1000,1000,1000,1⟩, ⟨9,1000,1000,1000,1000,1⟩,
   ⟨10,1000,1000,1000,1000,1⟩, ⟨11,1000,1000,1000,1000,1⟩,
   ⟨12,1000,1000,1000,1000,1⟩, ⟨13,1000,1000,1000,1000,1⟩,
   ⟨14,1000,1000,1000,1000,1⟩, ⟨15,1000,1000,1000,1000,1⟩,
   ⟨16,1000,1000,1000,1000,1⟩, ⟨17,1000,1000,1000,1000,1⟩,
   ⟨18,1000,1000,1000,1000,1⟩, ⟨19,1000,1000,1000,1000,1⟩]

/-- C5 counterexample: at the claim's own input (account 1000, entry 100,
stop 99, LOW regime) the leverage this module applies is the configured
10, so the cap is 10000, not the 15000 from leverage 15 that the claim
asserts. -/
theorem C5_counterexample :
    (calculate_position_size 1000 100 99 lowVolSeries).map
      SizingResult.leverage = some 10 ∧
    (1000 : ℚ) * config.LEVERAGE = 10000 ∧
    ¬ ((1000 : ℚ) * config.LEVERAGE = 15000) := by
  refine ⟨?_, by norm_num [config.LEVERAGE], by norm_num [config.LEVERAGE]⟩
  norm_num [calculate_position_size, calculate_risk_pct, _atr_regime,
    lowVolSeries, trueRanges, closesOf, qmean, takeLast, pyRound,
    pyRoundInt, min_def, config.LEVERAGE, config.LOW_VOL_ATR_PCT,
    config.MED_VOL_ATR_PCT, config.RISK_PCT_MIN, config.RISK_PCT_MAX]

/-- C5 as amended: the risk percent is 2.0 in a LOW regime, 1.5 in MED,
1.0 in HIGH; position notional is risk dollars over the relative stop
distance, capped at account times the configured leverage of 10 (not 15);
for account 1000, entry 100, stop 99 in a LOW regime the result is risk 20,
notional 2000 (uncapped, the cap being 10000) and 20 contracts, and with a
0.01 percent stop distance the 10000 cap binds. -/
theorem C5_position_sizing :
    (∀ o, _atr_regime o = "LOW" → calculate_risk_pct o = 2) ∧
    (∀ o, _atr_regime o = "MED" → calculate_risk_pct o = 3/2) ∧
    (∀ o, _atr_regime o = "HIGH" → calculate_risk_pct o = 1) ∧
    calculate_position_size 1000 100 99 lowVolSeries =
      some { risk_pct := 2, risk_usd := 20, position_usd := 2000,
             contracts := 20, leverage := 10 } ∧
    calculate_position_size 1000 100 (9999/100) lowVolSeries =
      some { risk_pct := 2, risk_usd := 20, position_usd := 10000,
             contracts := 100, leverage := 10 } := by
  refine ⟨fun o ho => ?_, fun o ho => ?_, fun o ho => ?_, ?_, ?_⟩
  · simp [calculate_risk_pct, ho, config.RISK_PCT_MAX]
  · simp [calculate_risk_pct, ho, config.RISK_PCT_MIN, config.RISK_PCT_MAX]
    norm_num
  · simp [calculate_risk_pct, ho, config.RISK_PCT_MIN]
  · norm_num [calculate_position_size, calculate_risk_pct, _atr_regime,
      lowVolSeries, trueRanges, closesOf, qmean, takeLast, pyRound,
      pyRoundInt, min_def, config.LEVERAGE, config.LOW_VOL_ATR_PCT,
      config.MED_VOL_ATR_PCT, config.RISK_PCT_MIN, config.RISK_PCT_MAX]
  · have habs1 : |(100 : ℚ) - 9999/100| = 1/100 := by
      rw [show (100 : ℚ) - 9999/100 = 1/100 by norm_num, abs_of_pos]
      norm_num
    have habs2 : |(1 : ℚ)/100| = 1/100 := by
      rw [abs_of_pos]
      norm_num
    norm_num [calculate_position_size, calculate_risk_pct, _atr_regime,
      lowVolSeries, trueRanges, closesOf, qmean, takeLast, pyRound,
      pyRoundInt, min_def, habs1, habs2, config.LEVERAGE,
      config.LOW_VOL_ATR_PCT, config.MED_VOL_ATR_PCT,
      config.RISK_PCT_MIN, config.RISK_PCT_MAX]

/-- Witness for C5 at the concrete zero-range LOW volatility series. -/
theorem C5_position_sizing_witness :
    calculate_risk_pct lowVolSeries = 2 :=
  C5_position_sizing.1 lowVolSeries
    (by norm_num [_atr_regime, lowVolSeries, trueRanges, closesOf, qmean,
      takeLast, config.LOW_VOL_ATR_PCT, config.MED_VOL_ATR_PCT])

-- ═══════════════════════════════════════════════════════════════════════
-- Claims C3 and C2: configuration values and the Exchange Manager method
-- ═══════════════════════════════════════════════════════════════════════

/-- C3 counterexample: the configuration module of this revision does not
hold the claimed values — the universe has 3 pairs not 6, the minimum
risk-reward is not 1.5, the leverage is not 15, and the signal caps are
not 6 and 2. -/
theorem C3_counterexample :
    config.TRADING_PAIRS.length ≠ 6 ∧ config.MIN_RR_RATIO ≠ 3/2 ∧
    config.LEVERAGE ≠ 15 ∧ config.MAX_SIGNALS_DAY ≠ 6 ∧
    config.MAX_CONCURRENT ≠ 2 :=
  ⟨by decide, by norm_num [config.MIN_RR_RATIO],
   by norm_num [config.LEVERAGE], by decide, by decide⟩

/-- C3 as amended: the configuration module defines a three-pair trading
universe, a minimum risk-reward ratio of 2.0, leverage of 10, a single
risk percent of 1.0 (no band), and daily and concurrent signal caps of 4
and 1. -/
theorem C3_config_values :
    config.TRADING_PAIRS = ["BTC/USDT", "ETH/USDT", "SOL/USDT"] ∧
    config.TRADING_PAIRS.length = 3 ∧ config.MIN_RR_RATIO = 2 ∧
    config.LEVERAGE = 10 ∧ config.RISK_PCT = 1 ∧
    config.MAX_SIGNALS_DAY = 4 ∧ config.MAX_CONCURRENT = 1 :=
  ⟨rfl, by decide, rfl, rfl, rfl, rfl, rfl⟩

/-- The method names the ExchangeManager class body defines in
src/exchanges/exchange_manager.py, in source order. -/
def exchangeManagerMethods : List String :=
  ["__init__", "set_ws_feed", "connect", "close", "fetch_ohlcv",
   "fetch_orderbook", "fetch_ticker", "fetch_all_ohlcv"]

/-- Python attribute lookup on an ExchangeManager instance: calling a
method resolves when the class defines it and raises AttributeError
otherwise. -/
def callExchangeManagerMethod (name : String) : Except String Unit :=
  if exchangeManagerMethods.contains name then Except.ok ()
  else Except.error "AttributeError"

/-- The unconditional attach call ArunabhaFinalBot.start makes at startup
(src/main.py, the set_ws_feed call on the Exchange Manager). -/
def mainStartWsAttach : Except String Unit :=
  callExchangeManagerMethod "set_ws_feed"

/-- C2 counterexample: the Exchange Manager of this tree does define
set_ws_feed, so the orchestrator's startup call resolves instead of
raising AttributeError. -/
theorem C2_counterexample :
    "set_ws_feed" ∈ exchangeManagerMethods ∧
    mainStartWsAttach ≠ Except.error "AttributeError" := by
  constructor
  · decide
  · intro h
    simp [mainStartWsAttach, callExchangeManagerMethod,
      exchangeManagerMethods] at h

/-- C2 as amended: the Exchange Manager defines the set_ws_feed method to
attach the WebSocket feed, and the main orchestrator's unconditional
startup call to it succeeds, so the program does not fail on that call. -/
theorem C2_set_ws_feed_resolves :
    mainStartWsAttach = Except.ok () := by
  simp [mainStartWsAttach, callExchangeManagerMethod, exchangeManagerMethods]

-- ═══════════════════════════════════════════════════════════════════════
-- src/core/vpoc_profile.py
-- ═══════════════════════════════════════════════════════════════════════

/-- Tolerance constant VPOC_TOLERANCE_PCT (0.5 percent). -/
def VPOC_TOLERANCE_PCT : ℚ := 1/2

/-- The volume profile dictionary built by build_volume_profile, restricted
to the fields the confluence check reads. -/
structure VolumeProfile where
  vpoc : ℚ
  vah : ℚ
  val : ℚ
  hvn_levels : List ℚ
  lvn_levels : List ℚ
deriving DecidableEq

/-- near_vpoc from src/core/vpoc_profile.py: price within the tolerance
percent of the VPOC; false on a non-positive VPOC. -/
def near_vpoc (profile : VolumeProfile) (price : ℚ) : Bool :=
  if profile.vpoc ≤ 0 then false
  else |price - profile.vpoc| / profile.vpoc * 100 ≤ VPOC_TOLERANCE_PCT

/-- near_hvn from src/core/vpoc_profile.py: price within the tolerance
percent of any positive High-Volume Node level. -/
def near_hvn (profile : VolumeProfile) (price : ℚ) : Bool :=
  profile.hvn_levels.any fun hvn =>
    0 < hvn ∧ |price - hvn| / hvn * 100 ≤ VPOC_TOLERANCE_PCT

/-- in_lvn from src/core/vpoc_profile.py: price within half the tolerance
percent of any positive Low-Volume Node level. -/
def in_lvn (profile : VolumeProfile) (price : ℚ) : Bool :=
  profile.lvn_levels.any fun lvn =>
    0 < lvn ∧ |price - lvn| / lvn * 100 ≤ VPOC_TOLERANCE_PCT * (1/2)

/-- The reason string each branch of vpoc_confirms builds, with the
interpolated prices dropped: noProfile is the neutral missing-data pass,
lvnNoFloor and lvnNoCeiling the LVN failures for LONG and SHORT,
belowValueAreaLow and aboveValueAreaHigh the value-area failures,
nearHvnVpoc the high-confluence pass and insideValueArea the plain pass. -/
inductive VpocReason where
  | noProfile
  | lvnNoFloor
  | belowValueAreaLow
  | lvnNoCeiling
  | aboveValueAreaHigh
  | nearHvnVpoc
  | insideValueArea
deriving DecidableEq

/-- vpoc_confirms from src/core/vpoc_profile.py: the full VPOC confluence
check; a missing or non-positive-VPOC profile passes neutrally, an entry
in a Low-Volume Node fails, an entry below 0.998 times VAL fails a LONG
and an entry above 1.002 times VAH fails a SHORT, anything else passes
with the near-HVN/VPOC reason when close to the VPOC or an HVN. -/
def vpoc_confirms (direction : String) (entry : ℚ)
    (profile : Option VolumeProfile) : Bool × VpocReason :=
  match profile with
  | none => (true, .noProfile)
  | some p =>
    if p.vpoc ≤ 0 then (true, .noProfile)
    else if direction = "LONG" then
      if in_lvn p entry then (false, .lvnNoFloor)
      else if entry < p.val * (998/1000) then (false, .belowValueAreaLow)
      else if near_vpoc p entry || near_hvn p entry then (true, .nearHvnVpoc)
      else (true, .insideValueArea)
    else
      if in_lvn p entry then (false, .lvnNoCeiling)
      else if p.vah * (1002/1000) < entry then (false, .aboveValueAreaHigh)
      else if near_vpoc p entry || near_hvn p entry then (true, .nearHvnVpoc)
      else (true, .insideValueArea)

/-- A profile with VPOC 100 inside the value area [100, 101], one HVN at
the VPOC and no LVNs. -/
def vpocCexProfile : VolumeProfile :=
  { vpoc := 100, vah := 101, val := 100, hvn_levels := [100],
    lvn_levels := [] }

/-- C7 counterexample: with value area low 100, the entry 99.9 sits below
VAL, yet the LONG check passes, because the code only fails entries below
0.998 times VAL — the claim's unbuffered below-VAL failure is wrong. -/
theorem C7_counterexample :
    (vpoc_confirms "LONG" (999/10) (some vpocCexProfile)).1 = true ∧
    (999/10 : ℚ) < vpocCexProfile.val := by
  have habs : |(999 : ℚ)/10 - 100| = 1/10 := by
    rw [show (999 : ℚ)/10 - 100 = -(1/10) by norm_num, abs_neg,
      abs_of_pos (by norm_num : (0:ℚ) < 1/10)]
  have habs2 : |(1 : ℚ)/10| = 1/10 :=
    abs_of_pos (by norm_num : (0:ℚ) < 1/10)
  constructor
  · norm_num [vpoc_confirms, vpocCexProfile, in_lvn, near_vpoc, near_hvn,
      VPOC_TOLERANCE_PCT, habs, habs2]
  · norm_num [vpocCexProfile]

/-- C7 as amended: for a profile with positive VPOC the check fails
exactly when the entry is in a Low-Volume Node or beyond the buffered
value-area bound — below 0.998 times VAL for LONG, above 1.002 times VAH
for SHORT; otherwise it passes, with the near-HVN/VPOC reason when within
0.5 percent of the VPOC or an HVN; a missing or degenerate profile is a
neutral pass. -/
theorem C7_vpoc_confirms (p : VolumeProfile) (entry : ℚ) (hp : 0 < p.vpoc) :
    ((vpoc_confirms "LONG" entry (some p)).1 = false ↔
      in_lvn p entry = true ∨ entry < p.val * (998/1000)) ∧
    ((vpoc_confirms "SHORT" entry (some p)).1 = false ↔
      in_lvn p entry = true ∨ p.vah * (1002/1000) < entry) ∧
    (in_lvn p entry = false → ¬ entry < p.val * (998/1000) →
      (near_vpoc p entry || near_hvn p entry) = true →
      vpoc_confirms "LONG" entry (some p) = (true, .nearHvnVpoc)) ∧
    (in_lvn p entry = false → ¬ p.vah * (1002/1000) < entry →
      (near_vpoc p entry || near_hvn p entry) = true →
      vpoc_confirms "SHORT" entry (some p) = (true, .nearHvnVpoc)) ∧
    (∀ d : String, ∀ e : ℚ, vpoc_confirms d e none = (true, .noProfile)) ∧
    (∀ d : String, ∀ e : ℚ, ∀ q : VolumeProfile, q.vpoc ≤ 0 →
      vpoc_confirms d e (some q) = (true, .noProfile)) := by
  have hnp : ¬ p.vpoc ≤ 0 := not_le.mpr hp
  refine ⟨?_, ?_, ?_, ?_, fun d e => rfl, fun d e q hq => ?_⟩
  · simp only [vpoc_confirms, if_neg hnp]
    norm_num
    split_ifs with h1 h2 h3 <;> simp_all
  · simp only [vpoc_confirms, if_neg hnp]
    norm_num
    split_ifs with h1 h2 h3 <;> simp_all
  · intro h1 h2 h3
    simp only [vpoc_confirms, if_neg hnp]
    rw [if_pos trivial, if_neg (by simp [h1]), if_neg h2, if_pos h3]
  · intro h1 h2 h3
    simp only [vpoc_confirms, if_neg hnp]
    rw [if_neg (by decide : ¬ (("SHORT" : String) = "LONG")),
      if_neg (by simp [h1]), if_neg h2, if_pos h3]
  · simp [vpoc_confirms, if_pos hq]

/-- Witness for C7 at the concrete profile and the entry 99.9. -/
theorem C7_vpoc_confirms_witness :
    (vpoc_confirms "LONG" (999/10) (some vpocCexProfile)).1 = false ↔
      in_lvn vpocCexProfile (999/10) = true ∨
      (999/10 : ℚ) < vpocCexProfile.val * (998/1000) :=
  (C7_vpoc_confirms vpocCexProfile (999/10)
    (by norm_num [vpocCexProfile])).1

-- ═══════════════════════════════════════════════════════════════════════
-- src/exchanges/ws_feed.py
-- ═══════════════════════════════════════════════════════════════════════

/-- Ring-buffer capacity _CACHE_SIZE: completed candles kept per pair. -/
def _CACHE_SIZE : ℕ := 150

/-- ASCII lower-casing of one character, what str.lower does on the
uppercase symbol names in the trading universe. -/
def asciiLower (ch : Char) : Char :=
  if 'A' ≤ ch ∧ ch ≤ 'Z' then Char.ofNat (ch.toNat + 32) else ch

/-- _symbol_to_stream from src/exchanges/ws_feed.py: drop the slash and
lower-case the symbol, then append the kline suffix for the timeframe
(replace of the one-character slash pattern by the empty string is the
filter below). -/
def _symbol_to_stream (symbol tf : String) : String :=
  String.mk ((symbol.data.filter fun ch => ch ≠ '/').map asciiLower) ++
    "@kline_" ++ tf

/-- The _StreamRegistry forward map built at feed construction: stream
name to (symbol, timeframe) for every configured pair and timeframe. -/
def streamRegistry : List (String × String × String) :=
  config.TRADING_PAIRS.flatMap fun sym =>
    config.TIMEFRAMES.map fun tf => (_symbol_to_stream sym tf, sym, tf)

/-- _StreamRegistry.key: resolve a stream name, none when unknown. -/
def registryKey (stream : String) : Option (String × String) :=
  streamRegistry.lookup stream

/-- The kline payload of one WebSocket frame: open time, open, high, low,
close, volume and the x flag that marks the candle closed. -/
structure KlineData where
  t : ℚ
  o : ℚ
  h : ℚ
  l : ℚ
  c : ℚ
  v : ℚ
  x : Bool
deriving DecidableEq

/-- One parsed combined-stream frame: the stream name and the kline
payload (none models a frame whose data carries no k field). -/
structure WSMessage where
  stream : String
  kline : Option KlineData
deriving DecidableEq

/-- The mutable caches of BinanceWSFeed: the per-(symbol, timeframe) ring
buffer of closed candles and the per-key in-progress candle. -/
structure FeedState where
  cache : String × String → List Candle
  live : String × String → Option Candle

/-- Appending to a deque with maxlen _CACHE_SIZE: the new element goes on
the right and the oldest elements fall off the left when over capacity. -/
def ringAppend (buf : List Candle) (c : Candle) : List Candle :=
  let b := buf ++ [c]
  b.drop (b.length - _CACHE_SIZE)

/-- BinanceWSFeed._handle_message from src/exchanges/ws_feed.py, on an
already-JSON-parsed frame: resolve the stream against the registry (drop
unknown streams and frames without a kline), always store the candle as
the in-progress entry, and when the frame is marked closed push it into
the ring buffer, remove the in-progress entry, and emit one callback event
carrying the buffer snapshot.  The returned list holds the callback
invocations the source awaits. -/
def handle_message (st : FeedState) (msg : WSMessage) :
    FeedState × List (String × String × List Candle) :=
  match registryKey msg.stream with
  | none => (st, [])
  | some key =>
    match msg.kline with
    | none => (st, [])
    | some k =>
      let candle : Candle := ⟨k.t, k.o, k.h, k.l, k.c, k.v⟩
      let withLive : FeedState :=
        { st with live := fun q => if q = key then some candle else st.live q }
      if k.x then
        let newBuf := ringAppend (st.cache key) candle
        ({ cache := fun q => if q = key then newBuf else st.cache q,
           live := fun q => if q = key then none else withLive.live q },
         [(key.1, key.2, newBuf)])
      else (withLive, [])

/-- Below capacity, the ring append is a plain append. -/
theorem ringAppend_of_lt (buf : List Candle) (c : Candle)
    (h : buf.length < _CACHE_SIZE) : ringAppend buf c = buf ++ [c] := by
  simp only [ringAppend]
  have h0 : (buf ++ [c]).length - _CACHE_SIZE = 0 := by
    simp only [List.length_append, List.length_singleton]
    simp only [_CACHE_SIZE] at h ⊢
    omega
  rw [h0, List.drop_zero]

/-- C8: an open frame (x false) followed by a closed frame (x true) for
the same registered stream appends exactly one candle to that pair's ring
buffer, removes the in-progress entry, and fires the candle-close
callback exactly once with the pair's buffer snapshot; the open frame
appends nothing, fires nothing, and only updates the in-progress
candle. -/
theorem C8_ws_candle_accounting
    (st : FeedState) (m1 m2 : WSMessage) (sym tf : String)
    (k1 k2 : KlineData)
    (hkey : registryKey m1.stream = some (sym, tf))
    (hstream : m2.stream = m1.stream)
    (hk1 : m1.kline = some k1) (hx1 : k1.x = false)
    (hk2 : m2.kline = some k2) (hx2 : k2.x = true)
    (hcap : (st.cache (sym, tf)).length < _CACHE_SIZE) :
    (handle_message st m1).2 = [] ∧
    (∀ q, (handle_message st m1).1.cache q = st.cache q) ∧
    (handle_message st m1).1.live (sym, tf) =
      some ⟨k1.t, k1.o, k1.h, k1.l, k1.c, k1.v⟩ ∧
    (∀ q, q ≠ (sym, tf) → (handle_message st m1).1.live q = st.live q) ∧
    (handle_message (handle_message st m1).1 m2).1.cache (sym, tf) =
      st.cache (sym, tf) ++ [⟨k2.t, k2.o, k2.h, k2.l, k2.c, k2.v⟩] ∧
    ((handle_message (handle_message st m1).1 m2).1.cache (sym, tf)).length =
      (st.cache (sym, tf)).length + 1 ∧
    (handle_message (handle_message st m1).1 m2).1.live (sym, tf) = none ∧
    (∀ q, q ≠ (sym, tf) →
      (handle_message (handle_message st m1).1 m2).1.cache q = st.cache q) ∧
    (handle_message (handle_message st m1).1 m2).2 =
      [(sym, tf, st.cache (sym, tf) ++
        [⟨k2.t, k2.o, k2.h, k2.l, k2.c, k2.v⟩])] := by
  simp only [handle_message, hkey, hk1, hk2, hx1, hx2, hstream,
    Bool.false_eq_true, if_false, if_true]
  refine ⟨by trivial, fun q => by trivial, by simp, fun q hq => by simp [hq],
    ?_, ?_, by simp, fun q hq => by simp [hq], ?_⟩ <;>
    simp [ringAppend_of_lt _ _ hcap]

/-- The empty feed state: no closed candles, no in-progress candles. -/
def emptyFeedState : FeedState :=
  { cache := fun _ => [], live := fun _ => none }

/-- The open BTC 15m frame used in the C8 witness. -/
def wsOpenFrame : WSMessage :=
  { stream := "btcusdt@kline_15m",
    kline := some ⟨1000, 10, 12, 9, 11, 100, false⟩ }

/-- The closed BTC 15m frame used in the C8 witness. -/
def wsClosedFrame : WSMessage :=
  { stream := "btcusdt@kline_15m",
    kline := some ⟨1000, 10, 13, 9, 12, 200, true⟩ }

/-- Witness for C8: the open-then-closed frame pair on the empty feed. -/
theorem C8_ws_candle_accounting_witness :
    (handle_message emptyFeedState wsOpenFrame).2 = [] ∧
    (handle_message (handle_message emptyFeedState wsOpenFrame).1
        wsClosedFrame).1.cache ("BTC/USDT", "15m") =
      emptyFeedState.cache ("BTC/USDT", "15m") ++
        [⟨1000, 10, 13, 9, 12, 200⟩] ∧
    (handle_message (handle_message emptyFeedState wsOpenFrame).1
        wsClosedFrame).2 =
      [("BTC/USDT", "15m", emptyFeedState.cache ("BTC/USDT", "15m") ++
        [⟨1000, 10, 13, 9, 12, 200⟩])] := by
  have key := C8_ws_candle_accounting emptyFeedState wsOpenFrame
    wsClosedFrame "BTC/USDT" "15m"
    ⟨1000, 10, 12, 9, 11, 100, false⟩ ⟨1000, 10, 13, 9, 12, 200, true⟩
    (by decide) rfl rfl rfl rfl rfl (by decide)
  exact ⟨key.1, key.2.2.2.2.1, key.2.2.2.2.2.2.2.2⟩

-- ═══════════════════════════════════════════════════════════════════════
-- src/core/exit_strategy.py
-- ═══════════════════════════════════════════════════════════════════════

/-- The ActiveTrade dataclass: immutable trade parameters plus the mutable
stop, trailing and stage-flag state. -/
structure ActiveTrade where
  symbol : String
  direction : String
  entry_price : ℚ
  initial_sl : ℚ
  take_profit : ℚ
  atr : ℚ
  timeframe : String
  current_sl : ℚ
  trail_sl : ℚ
  breakeven_moved : Bool
  partial_closed : Bool
  trail_active : Bool
  candles_open : ℕ
deriving DecidableEq

/-- ActiveTrade construction including __post_init__, which seeds both
current_sl and trail_sl from the initial stop. -/
def mkActiveTrade (symbol direction : String)
    (entry_price initial_sl take_profit atr : ℚ)
    (timeframe : String) : ActiveTrade :=
  { symbol := symbol, direction := direction, entry_price := entry_price,
    initial_sl := initial_sl, take_profit := take_profit, atr := atr,
    timeframe := timeframe, current_sl := initial_sl,
    trail_sl := initial_sl, breakeven_moved := false,
    partial_closed := false, trail_active := false, candles_open := 0 }

/-- The sl_dist property: distance from entry to the initial stop. -/
def ActiveTrade.sl_dist (t : ActiveTrade) : ℚ :=
  |t.entry_price - t.initial_sl|

/-- The progress method: unrealized favorable move in R units, 0 when the
stop distance is degenerate. -/
def ActiveTrade.progress (t : ActiveTrade) (current_price : ℚ) : ℚ :=
  if t.sl_dist ≤ 0 then 0
  else if t.direction = "LONG" then
    (current_price - t.entry_price) / t.sl_dist
  else (t.entry_price - current_price) / t.sl_dist

/-- What one ExitManager.update_trade call produces: the mutated trade,
the returned (exit reason, exit price) pair — reason none with price 0
when no exit fired — and the reasons of the Telegram notifications sent
during the call, in order. -/
structure UpdateResult where
  trade : ActiveTrade
  exit_reason : Option String
  exit_price : ℚ
  notifs : List String
deriving DecidableEq

/-- ExitManager.update_trade from src/core/exit_strategy.py: bump the
candle count; check the hard stop first, then the hard take-profit, each
returning immediately; then the one-time break-even move at 1.0 R, the
one-time 50 percent partial close at 1.5 R which arms an ATR times 0.8
trailing stop, and finally the trailing-stop tighten-and-check. -/
def update_trade (t0 : ActiveTrade) (high low _close : ℚ) : UpdateResult :=
  let t := { t0 with candles_open := t0.candles_open + 1 }
  let current_price := if t.direction = "LONG" then high else low
  let adverse_price := if t.direction = "LONG" then low else high
  let prog := t.progress current_price
  if t.direction = "LONG" ∧ adverse_price ≤ t.current_sl then
    ⟨t, some "SL", t.current_sl, ["SL"]⟩
  else if t.direction = "SHORT" ∧ t.current_sl ≤ adverse_price then
    ⟨t, some "SL", t.current_sl, ["SL"]⟩
  else if t.direction = "LONG" ∧ t.take_profit ≤ high then
    ⟨t, some "TP", t.take_profit, ["TP"]⟩
  else if t.direction = "SHORT" ∧ low ≤ t.take_profit then
    ⟨t, some "TP", t.take_profit, ["TP"]⟩
  else
    let t1 :=
      if 1 ≤ prog ∧ t.breakeven_moved = false then
        { t with current_sl := t.entry_price, breakeven_moved := true }
      else t
    let n1 : List String :=
      if 1 ≤ prog ∧ t.breakeven_moved = false then ["BREAKEVEN"] else []
    if 3/2 ≤ prog ∧ t1.partial_closed = false then
      let trail :=
        if t1.direction = "LONG" then current_price - t1.atr * (8/10)
        else current_price + t1.atr * (8/10)
      let t2 :=
        { t1 with partial_closed := true, trail_active := true,
                  trail_sl := trail, current_sl := trail }
      ⟨t2, some "PARTIAL_TP", current_price, n1 ++ ["PARTIAL_TP"]⟩
    else if t1.trail_active then
      if t1.direction = "LONG" then
        let new_trail := current_price - t1.atr * (8/10)
        let t2 :=
          if t1.trail_sl < new_trail then
            { t1 with trail_sl := new_trail, current_sl := new_trail }
          else t1
        if adverse_price ≤ t2.trail_sl then
          ⟨t2, some "TRAIL_STOP", t2.trail_sl, n1 ++ ["TRAIL_STOP"]⟩
        else ⟨t2, none, 0, n1⟩
      else
        let new_trail := current_price + t1.atr * (8/10)
        let t2 :=
          if new_trail < t1.trail_sl then
            { t1 with trail_sl := new_trail, current_sl := new_trail }
          else t1
        if t2.trail_sl ≤ adverse_price then
          ⟨t2, some "TRAIL_STOP", t2.trail_sl, n1 ++ ["TRAIL_STOP"]⟩
        else ⟨t2, none, 0, n1⟩
    else ⟨t1, none, 0, n1⟩

/-- The C9 trade: LONG from entry 100, initial stop 98 (risk distance 2),
ATR 2, take-profit left as a parameter. -/
def c9Trade (tp : ℚ) : ActiveTrade :=
  mkActiveTrade "BTC/USDT" "LONG" 100 98 tp 2 "15m"

/-- Once the break-even flag is set, no update_trade call ever emits a
BREAKEVEN notification again: the only branch that emits it requires the
flag to be clear. -/
theorem update_trade_no_breakeven_repeat (t : ActiveTrade)
    (high low close : ℚ) (hb : t.breakeven_moved = true) :
    "BREAKEVEN" ∉ (update_trade t high low close).notifs := by
  simp only [update_trade, hb, Bool.true_eq_false, and_false, if_false,
    apply_ite UpdateResult.notifs]
  split_ifs <;> simp

/-- C10: within one update_trade call the hard stop check strictly
precedes the hard take-profit check: a LONG candle whose low touches the
current stop returns (SL, current stop) whatever its high — even one at
or past the take-profit — and symmetrically for SHORT; the only state
change on such a call is the candle counter. -/
theorem C10_sl_before_tp :
    (∀ (t : ActiveTrade) (high low close : ℚ), t.direction = "LONG" →
      low ≤ t.current_sl →
      update_trade t high low close =
        ⟨{ t with candles_open := t.candles_open + 1 },
         some "SL", t.current_sl, ["SL"]⟩) ∧
    (∀ (t : ActiveTrade) (high low close : ℚ), t.direction = "SHORT" →
      t.current_sl ≤ high →
      update_trade t high low close =
        ⟨{ t with candles_open := t.candles_open + 1 },
         some "SL", t.current_sl, ["SL"]⟩) := by
  constructor
  · intro t high low close hd hlow
    simp [update_trade, hd, hlow]
  · intro t high low close hd hhigh
    simp [update_trade, hd, hhigh]

/-- Witness for C10: a LONG trade with stop 98 and take-profit 104 on a
candle with low 97 and high 105 — both levels touched — exits at the
stop. -/
theorem C10_sl_before_tp_witness :
    ((104 : ℚ) ≤ 105 ∧ (97 : ℚ) ≤ 98) ∧
    update_trade (mkActiveTrade "BTC/USDT" "LONG" 100 98 104 2 "15m")
        105 97 100 =
      ⟨{ mkActiveTrade "BTC/USDT" "LONG" 100 98 104 2 "15m" with
         candles_open :=
           (mkActiveTrade "BTC/USDT" "LONG" 100 98 104 2 "15m").candles_open
             + 1 },
       some "SL",
       (mkActiveTrade "BTC/USDT" "LONG" 100 98 104 2 "15m").current_sl,
       ["SL"]⟩ :=
  ⟨⟨by norm_num, by norm_num⟩,
   C10_sl_before_tp.1 (mkActiveTrade "BTC/USDT" "LONG" 100 98 104 2 "15m")
     105 97 100 rfl (by norm_num [mkActiveTrade])⟩

/-- C9: for the LONG trade with entry 100, stop 98 and ATR 2 whose stop
and take-profit are untouched, the call whose high reaches 102 (progress
1.0) moves the stop to 100 and fires exactly one BREAKEVEN, setting the
one-time flag — and no call on a trade with the flag set ever fires
BREAKEVEN again; the subsequent call whose high reaches 103 (progress
1.5) fires exactly one PARTIAL_TP, marks the partial close, arms the
trail and sets the initial trailing stop to 103 - 2 times 0.8 = 101.4. -/
theorem C9_exit_stages (tp l1 l2 c1 c2 : ℚ)
    (htp1 : 102 < tp) (htp2 : 103 < tp) (hl1 : 98 < l1) (hl2 : 100 < l2) :
    (update_trade (c9Trade tp) 102 l1 c1).notifs = ["BREAKEVEN"] ∧
    (update_trade (c9Trade tp) 102 l1 c1).trade.current_sl = 100 ∧
    (update_trade (c9Trade tp) 102 l1 c1).trade.breakeven_moved = true ∧
    (update_trade (c9Trade tp) 102 l1 c1).exit_reason = none ∧
    (∀ (t : ActiveTrade) (h l c : ℚ), t.breakeven_moved = true →
      "BREAKEVEN" ∉ (update_trade t h l c).notifs) ∧
    (update_trade (update_trade (c9Trade tp) 102 l1 c1).trade
        103 l2 c2).notifs = ["PARTIAL_TP"] ∧
    (update_trade (update_trade (c9Trade tp) 102 l1 c1).trade
        103 l2 c2).trade.partial_closed = true ∧
    (update_trade (update_trade (c9Trade tp) 102 l1 c1).trade
        103 l2 c2).trade.trail_active = true ∧
    (update_trade (update_trade (c9Trade tp) 102 l1 c1).trade
        103 l2 c2).trade.trail_sl = 507/5 ∧
    (update_trade (update_trade (c9Trade tp) 102 l1 c1).trade
        103 l2 c2).exit_reason = some "PARTIAL_TP" ∧
    (update_trade (update_trade (c9Trade tp) 102 l1 c1).trade
        103 l2 c2).exit_price = 103 := by
  have habs : |(100 : ℚ) - 98| = 2 := by
    rw [show (100 : ℚ) - 98 = 2 by norm_num,
      abs_of_pos (by norm_num : (0:ℚ) < 2)]
  have hle1 : ¬ (l1 ≤ 98) := not_le.mpr hl1
  have hle2 : ¬ (l2 ≤ 100) := not_le.mpr hl2
  have hTP1 : ¬ (tp ≤ 102) := not_le.mpr htp1
  have hTP2 : ¬ (tp ≤ 103) := not_le.mpr htp2
  have e1 : update_trade (c9Trade tp) 102 l1 c1 =
      ⟨{ symbol := "BTC/USDT", direction := "LONG", entry_price := 100,
         initial_sl := 98, take_profit := tp, atr := 2, timeframe := "15m",
         current_sl := 100, trail_sl := 98, breakeven_moved := true,
         partial_closed := false, trail_active := false,
         candles_open := 1 },
       none, 0, ["BREAKEVEN"]⟩ := by
    norm_num [update_trade, c9Trade, mkActiveTrade, ActiveTrade.progress,
      ActiveTrade.sl_dist, habs, hle1, hTP1]
    all_goals simp
  have e2 : update_trade (update_trade (c9Trade tp) 102 l1 c1).trade
      103 l2 c2 =
      ⟨{ symbol := "BTC/USDT", direction := "LONG", entry_price := 100,
         initial_sl := 98, take_profit := tp, atr := 2, timeframe := "15m",
         current_sl := 507/5, trail_sl := 507/5, breakeven_moved := true,
         partial_closed := true, trail_active := true,
         candles_open := 2 },
       some "PARTIAL_TP", 103, ["PARTIAL_TP"]⟩ := by
    rw [e1]
    norm_num [update_trade, ActiveTrade.progress, ActiveTrade.sl_dist,
      habs, hle2, hTP2]
    all_goals simp
  exact ⟨by rw [e1], by rw [e1], by rw [e1], by rw [e1],
    fun t h l c hb => update_trade_no_breakeven_repeat t h l c hb,
    by rw [e2], by rw [e2], by rw [e2], by rw [e2], by rw [e2], by rw [e2]⟩

/-- Witness for C9 at take-profit 110 and candle lows 101. -/
theorem C9_exit_stages_witness :
    (update_trade (c9Trade 110) 102 101 0).notifs = ["BREAKEVEN"] ∧
    (update_trade (c9Trade 110) 102 101 0).trade.current_sl = 100 ∧
    (update_trade (update_trade (c9Trade 110) 102 101 0).trade
        103 101 0).notifs = ["PARTIAL_TP"] ∧
    (update_trade (update_trade (c9Trade 110) 102 101 0).trade
        103 101 0).trade.trail_sl = 507/5 :=
  have key := C9_exit_stages 110 101 101 0 0 (by norm_num) (by norm_num)
    (by norm_num) (by norm_num)
  ⟨key.1, key.2.1, key.2.2.2.2.2.1, key.2.2.2.2.2.2.2.2.1⟩
